import Mathlib

/-!
Verification development for `django-multipleformwizard`
(`multipleformwizard/forms.py`), a multi-step form workflow controller
layered on the `django.contrib.formtools` wizard machinery.

The embedding below translates the repository's `forms.py` into Lean:

* `get_initkwargs` (lines 17-99): normalisation of the declared form list
  into the ordered step collection, plus the file-field / file-storage check.
* `MultipleFormWizardView.get_forms` (lines 246-315): construction of the
  form instances for one step.
* `MultipleFormWizardView.render_done` (lines 136-176): the finalize pass —
  re-validation of every step, result assembly, terminal callback, reset.
* `MultipleFormWizardView.post` (lines 193-244): the POST state machine.
* `NamedUrlWizardView.get` / `render_done` / `render_revalidation_failure`
  (lines 394-490): the URL-addressed variant.

The repository subclasses `django.contrib.formtools.wizard.views.WizardView`
and relies on several inherited framework methods (`get_form_list`,
`get_form_prefix`, `get_form`, `render_revalidation_failure`, the `steps`
helper, the storage backend operations and `ManagementForm`).  Those are
embedded from the framework's own definitions, each marked with a doc
comment naming its origin; the spec lists them as consumed capabilities
(§6) with the semantics embedded here.

Django machine-level details that cannot affect any of the verified
properties are abstracted: a form class carries an explicit validation
predicate `checkValid` over its bound payload (Django's field cleaning),
and the `initial` / `instance` / `queryset` keyword plumbing of
`get_forms` is not represented because in Django a *bound* form's
`is_valid()` never consults `initial`, and no verified property mentions
initial data.  What is kept exact: binding (`is_bound`), step ordering,
condition filtering, tagging and `delattr` of `_tag`, the `sorted()` call,
the prefix rule, storage reads/writes, and every control-flow branch of
the translated methods.
-/

namespace MFW

/-- Submitted field values for one step (Django's `QueryDict` of POST data,
flattened to key/value pairs). -/
abbrev StepData := List (String × String)

/-- Submitted files for one step (file field name to stored-file token). -/
abbrev StepFiles := List (String × String)

/-- One declared field of a Django form class (`base_fields` entry); only the
property relevant to configuration checking is kept: whether it is a
`forms.FileField`. -/
structure FormField where
  name : String
  is_file : Bool
deriving DecidableEq

/-- A Django form class: its name, its `base_fields`, and its validation
behaviour `checkValid pfx data files` — the result of `is_valid()` on an
instance *bound* with the given prefix, data and files (Django's per-field
cleaning and `clean()` abstracted into one predicate). -/
structure FormClass where
  name : String
  base_fields : List FormField
  checkValid : String → Option StepData → Option StepFiles → Bool

/-- A Django formset class (`formsets.BaseFormSet` subclass): its item form
class (`.form` attribute, used by `get_initkwargs` for the file-field
check) and its own validation behaviour when instantiated. -/
structure FormSetClass where
  name : String
  form : FormClass
  checkValid : String → Option StepData → Option StepFiles → Bool

/-- The shape of one value of the computed form list.  The constructors
mirror the `isinstance` / `issubclass` discriminations performed by
`get_initkwargs` and `get_forms`:

* `mapping`    — a `dict` of tag → form class;
* `plainForm`  — a subclass of `django.forms.Form`;
* `modelForm`  — a subclass of `forms.ModelForm` (in Django, **not** a
  subclass of `forms.Form`: both derive from `BaseForm` separately);
* `inlineFormSet` / `modelFormSet` / `plainFormSet` — subclasses of
  `forms.models.BaseInlineFormSet`, `forms.models.BaseModelFormSet`, and
  plain `formsets.BaseFormSet` respectively. -/
inductive FormStruct where
  | mapping (m : List (String × FormClass))
  | plainForm (fc : FormClass)
  | modelForm (fc : FormClass)
  | inlineFormSet (fs : FormSetClass)
  | modelFormSet (fs : FormSetClass)
  | plainFormSet (fs : FormSetClass)

/-- One element of the `form_list` argument of `get_initkwargs`: either a
bare entry (keyed by its zero-based position) or a `(step_name, form)`
tuple. -/
inductive FormListEntry where
  | bare (f : FormStruct)
  | named (step_name : String) (f : FormStruct)

/-- Errors raised during configuration (`get_initkwargs`). -/
inductive ConfigError where
  | assertionError (msg : String)
  | noFileStorageConfigured
deriving DecidableEq

/-- Fatal request-time errors surfaced to the caller. -/
inductive Failure where
  /-- `ValidationError` for missing/tampered `ManagementForm` data
  (`forms.py` lines 210-214). -/
  | validationError
  /-- An exception raised by the user-supplied `done()` callback,
  propagating out of `render_done`. -/
  | callbackExn (e : String)
  /-- Python `TypeError` (`issubclass` applied to a non-class, reachable in
  the inherited `get_form` when the step descriptor is a `dict`). -/
  | typeError
  /-- Python `KeyError` (`self.form_list[step]` with an unknown step). -/
  | keyError
  /-- Python `NameError` (`post` reads the leaked loop variable `form`
  when the step produced no forms). -/
  | nameError
deriving DecidableEq

/-- Ordered-dict insertion: replace in place if the key exists, else append
(`OrderedDict.__setitem__` / plain `dict` assignment semantics). -/
def odInsert {β : Type} : List (String × β) → String → β → List (String × β)
  | [], k, v => [(k, v)]
  | (k', v') :: rest, k, v =>
    if k' = k then (k, v) :: rest else (k', v') :: odInsert rest k v

/-- One iteration of the first `get_initkwargs` loop (`forms.py` lines
60-74): a `(step_name, dict)` tuple is added as a mapping, a
`(step_name, form)` tuple is added only when `issubclass(form, forms.Form)`
holds (so only `plainForm`; anything else is silently skipped), and a bare
element is added under its zero-based counter. -/
def formListStep (acc : List (String × FormStruct)) (i : Nat) :
    FormListEntry → List (String × FormStruct)
  | .named n f =>
    match f with
    | .mapping m => odInsert acc n (.mapping m)
    | .plainForm fc => odInsert acc n (.plainForm fc)
    | _ => acc
  | .bare f => odInsert acc (toString i) f

/-- The computed form list built by the first `get_initkwargs` loop
(`forms.py` lines 55-74); the enumeration counter advances on every entry,
including skipped ones. -/
def computedFormList (fl : List FormListEntry) : List (String × FormStruct) :=
  (fl.foldl (fun p e => (formListStep p.1 p.2 e, p.2 + 1))
    (([] : List (String × FormStruct)), 0)).1

/-- The `form_collection` inspected by the second `get_initkwargs` loop
(`forms.py` lines 77-85) for one computed value: the sub-forms of a `dict`,
or the formset's item form (`form = form.form`); for a form class neither
branch fires and the collection stays empty. -/
def formCollectionOf : FormStruct → List FormClass
  | .mapping m => m.map (·.2)
  | .plainForm _ => []
  | .modelForm _ => []
  | .inlineFormSet fs => [fs.form]
  | .modelFormSet fs => [fs.form]
  | .plainFormSet fs => [fs.form]

/-- Whether the second `get_initkwargs` loop finds a `forms.FileField` in
the inspected collection of this computed value (`forms.py` lines 87-95). -/
def structNeedsFileStorage (f : FormStruct) : Bool :=
  (formCollectionOf f).any fun fc => fc.base_fields.any (·.is_file)

/-- `MultipleFormWizardView.get_initkwargs` (`forms.py` lines 17-99),
restricted to the computation of `kwargs['form_list']` and the raised
configuration errors.  `has_file_storage` models
`hasattr(cls, 'file_storage')`. -/
def get_initkwargs (has_file_storage : Bool) (fl : List FormListEntry) :
    Except ConfigError (List (String × FormStruct)) :=
  if fl.length = 0 then .error (.assertionError "at least one form is needed")
  else
    let cfl := computedFormList fl
    if !has_file_storage && cfl.any (fun kv => structNeedsFileStorage kv.2) then
      .error .noFileStorageConfigured
    else
      .ok cfl

/-- The wizard's durable state, owned by the storage backend.  Modelled from
the spec: §6 StorageAdapter — current step, per-step data/files, extra
data, with `reset()` clearing all of it (the `formtools` session/cookie
storage semantics). -/
structure WizardState where
  current_step : Option String
  step_data : List (String × StepData)
  step_files : List (String × StepFiles)
  extra_data : List (String × String)
deriving DecidableEq

/-- `self.storage.get_step_data(step)`: `None` when the step was never
stored. -/
def get_step_data (s : WizardState) (k : String) : Option StepData :=
  s.step_data.lookup k

/-- `self.storage.get_step_files(step)`. -/
def get_step_files (s : WizardState) (k : String) : Option StepFiles :=
  s.step_files.lookup k

/-- `self.storage.set_step_data(step, data)`. -/
def set_step_data (s : WizardState) (k : String) (d : StepData) : WizardState :=
  { s with step_data := odInsert s.step_data k d }

/-- `self.storage.set_step_files(step, files)`. -/
def set_step_files (s : WizardState) (k : String) (d : StepFiles) : WizardState :=
  { s with step_files := odInsert s.step_files k d }

/-- `self.storage.reset()`: clears current step, all step data/files and
extra data. -/
def resetState : WizardState :=
  { current_step := none, step_data := [], step_files := [], extra_data := [] }

/-- An instantiated (bound or unbound) form object: the class it was
constructed from, its bound payload, its prefix, and the `_tag` attribute
set on grouped sub-forms by `get_forms` (line 277). -/
structure FormInstance where
  clsName : String
  check : String → Option StepData → Option StepFiles → Bool
  data : Option StepData
  files : Option StepFiles
  pfx : String
  tag : Option String

/-- A slot of the finalize result: a single-form step contributes the form
object itself, a multi-form collection contributes the tag-keyed mapping
built in `render_done` (`forms.py` lines 155-166). -/
inductive ResultEntry where
  | single (f : FormInstance)
  | grouped (l : List (String × FormInstance))

/-- A response representation: a rendered step (list of forms in the
context), a render of a single form object (the inherited
`render_revalidation_failure` passes one form, not a list), a redirect to
`reverse(url_name, step=step)` plus query string, or whatever the user's
`done()` callback returns — the `doneResponse` constructor lets concrete
callbacks echo their arguments. -/
inductive Response where
  | rendered (forms : List FormInstance)
  | renderedSingle (form : FormInstance)
  | redirect (url_name : String) (step : String) (query : String)
  | doneResponse (form_list : List ResultEntry)
      (form_dict : List (String × ResultEntry))

/-- A configured wizard view.  `form_list` is the computed ordered step
collection, `cond` the evaluated per-step condition (framework
`get_form_list` consults `condition_dict` with the view — hence the
wizard state — as context, defaulting to active), `pfx` the view's
management-form prefix (`self.prefix`), `done` the user-supplied terminal
callback (which may raise), and `url_name` / `done_step_name` the
named-URL variant's configuration. -/
structure Wizard where
  form_list : List (String × FormStruct)
  cond : String → WizardState → Bool
  pfx : String
  done : List ResultEntry → List (String × ResultEntry) →
    Except String Response
  url_name : String
  done_step_name : String

/-- An incoming POST request: the POST payload and the uploaded files. -/
structure Request where
  post : StepData
  files : StepFiles

/-- Inherited `WizardView.get_form_list` restricted to its key sequence:
the declared steps, in collection order, filtered by the evaluated
condition (`condition_dict.get(step, True)`, callables receiving the
view). -/
def activeSteps (w : Wizard) (s : WizardState) : List String :=
  (w.form_list.filter fun p => w.cond p.1 s).map (·.1)

/-- Inherited `StepsHelper.first`: the first active step (`IndexError` on an
empty active list is out of scope; the default is never read by the
verified properties). -/
def stepsFirst (w : Wizard) (s : WizardState) : String :=
  (activeSteps w s).headD ""

/-- Inherited `StepsHelper.last`: the last active step. -/
def stepsLast (w : Wizard) (s : WizardState) : String :=
  (activeSteps w s).getLast?.getD ""

/-- Inherited `StepsHelper.current`: `self.storage.current_step or
self.first` — Python `or` also falls back on an empty string. -/
def stepsCurrent (w : Wizard) (s : WizardState) : String :=
  match s.current_step with
  | some c => if c = "" then stepsFirst w s else c
  | none => stepsFirst w s

/-- Inherited `WizardView.get_next_step`: the active step following the
current one, `None` past the end (or if the current step is not in the
active list). -/
def stepsNext (w : Wizard) (s : WizardState) : Option String :=
  let keys := activeSteps w s
  match keys.findIdx? (· = stepsCurrent w s) with
  | some i => (keys.drop (i + 1)).head?
  | none => none

/-- Inherited `WizardView.get_form_prefix(step, form)`: returns
`str(step)`, ignoring the form argument.  None of the view classes in
`forms.py` overrides it, so every form of a step — including every
sub-form of a grouped step — receives the step name as its prefix. -/
def get_form_pfx (step : String) (_form_cls : String) : String := step

/-- `is_valid()` of a constructed form object: Django's
`BaseForm.is_valid` returns `self.is_bound and not self.errors`, and
`is_bound` holds iff `data is not None or files is not None`; the error
computation is the class's `checkValid` predicate. -/
def FormInstance.is_valid (f : FormInstance) : Bool :=
  (f.data.isSome || f.files.isSome) && f.check f.pfx f.data f.files

/-- Construction of one form instance from a form class (the
`form_class(**kwargs)` calls of `get_forms`). -/
def mkForm (fc : FormClass) (data : Option StepData) (files : Option StepFiles)
    (p : String) : FormInstance :=
  { clsName := fc.name, check := fc.checkValid, data := data, files := files,
    pfx := p, tag := none }

/-- Construction of one formset instance from a formset class. -/
def mkFormSet (fs : FormSetClass) (data : Option StepData)
    (files : Option StepFiles) (p : String) : FormInstance :=
  { clsName := fs.name, check := fs.checkValid, data := data, files := files,
    pfx := p, tag := none }

/-- `MultipleFormWizardView.get_forms` (`forms.py` lines 246-315).  A `dict`
step descriptor yields one tagged instance per `(form_name, form_class)`
item, each with prefix `get_form_prefix(step, form_class)`; a
`ModelForm`/`BaseInlineFormSet`, `Form` or `BaseModelFormSet` descriptor
yields a single instance; any other descriptor (a plain
`formsets.BaseFormSet`) matches none of the `if`/`elif` branches and the
collection stays empty.  A missing step would raise `KeyError` in Python;
the verified properties only apply `get_forms` to declared steps. -/
def get_forms (w : Wizard) (s : WizardState) (step? : Option String)
    (data : Option StepData) (files : Option StepFiles) : List FormInstance :=
  let step := step?.getD (stepsCurrent w s)
  match w.form_list.lookup step with
  | some (.mapping m) =>
    m.map fun p =>
      { mkForm p.2 data files (get_form_pfx step p.2.name) with tag := some p.1 }
  | some (.modelForm fc) => [mkForm fc data files (get_form_pfx step fc.name)]
  | some (.inlineFormSet fs) => [mkFormSet fs data files (get_form_pfx step fs.name)]
  | some (.plainForm fc) => [mkForm fc data files (get_form_pfx step fc.name)]
  | some (.modelFormSet fs) => [mkFormSet fs data files (get_form_pfx step fs.name)]
  | some (.plainFormSet _) => []
  | none => []

/-- Inherited `WizardView.get_form` (singular), called by
`NamedUrlWizardView.get`: constructs the single `self.form_list[step]`
instance.  With a `dict` descriptor the `issubclass` test raises
`TypeError`; with an unknown step the subscript raises `KeyError`. -/
def get_form (w : Wizard) (s : WizardState) (step? : Option String)
    (data : Option StepData) (files : Option StepFiles) :
    Except Failure FormInstance :=
  let step := step?.getD (stepsCurrent w s)
  match w.form_list.lookup step with
  | none => .error .keyError
  | some (.mapping _) => .error .typeError
  | some (.plainForm fc) => .ok (mkForm fc data files (get_form_pfx step fc.name))
  | some (.modelForm fc) => .ok (mkForm fc data files (get_form_pfx step fc.name))
  | some (.inlineFormSet fs) => .ok (mkFormSet fs data files (get_form_pfx step fs.name))
  | some (.modelFormSet fs) => .ok (mkFormSet fs data files (get_form_pfx step fs.name))
  | some (.plainFormSet fs) => .ok (mkFormSet fs data files (get_form_pfx step fs.name))

/-- `MultipleFormWizardView.render` (`forms.py` lines 101-107):
`forms = forms or self.get_forms()` — an empty (falsy) collection is
replaced by freshly built unbound forms for the current step. -/
def render (w : Wizard) (s : WizardState) (fs : List FormInstance) : Response :=
  .rendered (if fs.isEmpty then get_forms w s none none none else fs)

/-- `MultipleFormWizardView.render_goto_step` (`forms.py` lines 125-134):
set the stored current step, rebuild that step's forms from its stored
data/files, render. -/
def render_goto_step (w : Wizard) (s : WizardState) (goto : String) :
    Response × WizardState :=
  let s' := { s with current_step := some goto }
  let cur := stepsCurrent w s'
  let fs := get_forms w s' none (get_step_data s' cur) (get_step_files s' cur)
  (render w s' fs, s')

/-- `MultipleFormWizardView.render_next_step` (`forms.py` lines 109-123):
build the next step's forms from its stored data, then move the stored
current step forward and render. -/
def render_next_step (w : Wizard) (s : WizardState) : Response × WizardState :=
  let next := stepsNext w s
  let new_forms := get_forms w s next (next.bind fun k => get_step_data s k)
    (next.bind fun k => get_step_files s k)
  let s' := { s with current_step := next }
  (render w s' new_forms, s')

/-- The forms rebuilt for one step during the finalize pass
(`forms.py` lines 146-148): `get_forms` over the stored data and files of
that step. -/
def rebuiltForms (w : Wizard) (s : WizardState) (k : String) : List FormInstance :=
  get_forms w s (some k) (get_step_data s k) (get_step_files s k)

/-- The first rebuilt form of a collection that fails `is_valid()`
(`forms.py` lines 150-153 abort on the first invalid form). -/
def firstInvalid (l : List FormInstance) : Option FormInstance :=
  l.find? fun f => !f.is_valid

/-- Whether some rebuilt form of step `k` fails re-validation. -/
def stepFails (w : Wizard) (s : WizardState) (k : String) : Bool :=
  (rebuiltForms w s k).any fun f => !f.is_valid

/-- The revalidation loop of `render_done` (`forms.py` lines 143-153): walk
the active steps in collection order, rebuild each step's forms from
storage, abort with `(step, form)` at the first form that fails
validation, otherwise collect each step's validated forms. -/
def revalidate (w : Wizard) (s : WizardState) :
    List String → Except (String × FormInstance) (List (String × List FormInstance))
  | [] => .ok []
  | k :: ks =>
    let objs := rebuiltForms w s k
    match firstInvalid objs with
    | some f => .error (k, f)
    | none => (revalidate w s ks).map fun rest => (k, objs) :: rest

/-- The `form._tag` read of `render_done` line 164 (an untagged form in a
multi-form collection would raise `AttributeError`; unreachable because
only `dict` steps produce collections of length above one). -/
def tagKey (f : FormInstance) : String := f.tag.getD ""

/-- `delattr(form, '_tag')` (`forms.py` line 165). -/
def untag (f : FormInstance) : FormInstance := { f with tag := none }

/-- The result entry contributed by one step's validated form collection
(`forms.py` lines 156-166): a singleton collection contributes the form
object itself (note: even when the step was declared as a one-tag `dict`,
the form keeps its `_tag`), a longer collection contributes the tag-keyed
mapping with `_tag` removed from each form, and an empty collection
contributes nothing. -/
def entryOfCollection : List FormInstance → Option ResultEntry
  | [] => none
  | [f] => some (.single f)
  | fs => some (.grouped (fs.map fun f => (tagKey f, untag f)))

/-- The `result_forms` dict of `render_done` (`forms.py` lines 155-166), in
insertion (= collection) order. -/
def assembleResults (l : List (String × List FormInstance)) :
    List (String × ResultEntry) :=
  l.filterMap fun kv => (entryOfCollection kv.2).map fun e => (kv.1, e)

/-- Structural code-point comparison of character lists (Python's string
`<` compares code points lexicographically); written by structural
recursion so that the kernel can evaluate it. -/
def charListLe : List Char → List Char → Bool
  | [], _ => true
  | _ :: _, [] => false
  | a :: as, b :: bs =>
    if a.toNat < b.toNat then true
    else if b.toNat < a.toNat then false
    else charListLe as bs

/-- Python string comparison `a <= b` over code points. -/
def strLe (a b : String) : Bool := charListLe a.data b.data

/-- Key order on result pairs, for the `sorted(result_forms.keys())` call. -/
def pairLe (p q : String × ResultEntry) : Prop := strLe p.1 q.1 = true

instance : DecidableRel pairLe := fun p q =>
  inferInstanceAs (Decidable (strLe p.1 q.1 = true))

/-- `form_list = [result_forms[key] for key in sorted(result_forms.keys())]`
(`forms.py` line 169), modelled as a stable sort of the key/entry pairs by
key: since `result_forms` is a dict its keys are unique, so sorting the
pairs and projecting the entries agrees with sorting the keys and looking
each one up. -/
def sortPairs (l : List (String × ResultEntry)) : List (String × ResultEntry) :=
  List.insertionSort pairLe l

/-- The tail of `render_done` on the all-valid path (`forms.py` lines
168-176): build the ordered result list from the sorted keys, invoke the
terminal callback with the list and the dict, and reset the storage after
the callback returns; an exception raised by the callback propagates
without the reset having run (there is no `try`/`finally`). -/
def doneDispatch (w : Wizard) (fd : List (String × ResultEntry))
    (s : WizardState) : Except (Failure × WizardState) (Response × WizardState) :=
  let fl := (sortPairs fd).map (·.2)
  match w.done fl fd with
  | .ok resp => .ok (resp, resetState)
  | .error e => .error (.callbackExn e, s)

/-- `MultipleFormWizardView.render_done` (`forms.py` lines 136-176),
parameterised by the dynamically dispatched
`render_revalidation_failure` handler (overridden by the named-URL
variant).  The unused `form` argument of the Python method is omitted. -/
def render_done_core
    (rvf : String → FormInstance → WizardState → Response × WizardState)
    (w : Wizard) (s : WizardState) :
    Except (Failure × WizardState) (Response × WizardState) :=
  match revalidate w s (activeSteps w s) with
  | .error (k, f) => .ok (rvf k f s)
  | .ok final => doneDispatch w (assembleResults final) s

/-- Inherited `WizardView.render_revalidation_failure(step, form)`: sets
`self.storage.current_step = step` and renders the single failing form
(`self.render(form)` — one form object, not a collection). -/
def base_revalidation_failure (_w : Wizard) (k : String) (f : FormInstance)
    (s : WizardState) : Response × WizardState :=
  (.renderedSingle f, { s with current_step := some k })

/-- `render_done` as dispatched on `MultipleFormWizardView` itself. -/
def render_done (w : Wizard) (s : WizardState) :
    Except (Failure × WizardState) (Response × WizardState) :=
  render_done_core (base_revalidation_failure w) w s

/-- The `wizard_goto_step` directive of `post` (`forms.py` lines 204-206):
the posted value, when truthy and naming an active step. -/
def gotoStep (w : Wizard) (s : WizardState) (req : Request) : Option String :=
  match req.post.lookup "wizard_goto_step" with
  | some g => if g != "" && (activeSteps w s).contains g then some g else none
  | none => none

/-- The cleaned `current_step` of `ManagementForm(self.request.POST,
prefix=self.prefix)`: the framework's `ManagementForm` is a Django form
with one required hidden `CharField` named `current_step`, so its field is
read from the POST key `"<prefix>-current_step"` and validation fails
exactly when the key is absent or empty. -/
def mgmtCleaned (w : Wizard) (req : Request) : Option String :=
  match req.post.lookup (w.pfx ++ "-current_step") with
  | some v => if v = "" then none else some v
  | none => none

/-- The browser-refresh handling of `post` (`forms.py` lines 216-220): if
the client-declared step differs from the tracked current step and the
storage has a current step, move the stored current step to the declared
one. -/
def mgmtAdjust (w : Wizard) (s : WizardState) (v : String) : WizardState :=
  if v != stepsCurrent w s && s.current_step.isSome then
    { s with current_step := some v }
  else s

/-- `self.process_step(form)` (inherited): returns
`self.get_form_step_data(form) = form.data`; every form built by `post` is
bound with `self.request.POST`, so the stored payload is the request's
POST data. -/
def process_step (req : Request) : StepData := req.post

/-- `self.process_step_files(form)` (inherited): `form.files`, the
request's FILES payload. -/
def process_step_files (req : Request) : StepFiles := req.files

/-- The validate-and-advance tail of `post` (`forms.py` lines 222-244),
entered with the management-adjusted state: build the current step's forms
from the submitted data, and either store and advance/finalize (all
valid) or re-render the current step (any invalid).  On the all-valid
path Python reads the loop variable `form` leaked from the validation
loop (`NameError` if the step produced no forms), and re-evaluates
`self.steps.current` after each storage write. -/
def postValidate (w : Wizard) (s2 : WizardState) (req : Request) :
    Except (Failure × WizardState) (Response × WizardState) :=
  let fs := get_forms w s2 none (some req.post) (some req.files)
  let all_valid := fs.all fun f => f.is_valid
  if all_valid then
    match fs.getLast? with
    | none => .error (.nameError, s2)
    | some _form =>
      let s3 := set_step_data s2 (stepsCurrent w s2) (process_step req)
      let s4 := set_step_files s3 (stepsCurrent w s3) (process_step_files req)
      if stepsCurrent w s4 = stepsLast w s4 then render_done w s4
      else .ok (render_next_step w s4)
  else .ok (render w s2 fs, s2)

/-- `MultipleFormWizardView.post` (`forms.py` lines 193-244): honour a
valid `wizard_goto_step` directive; otherwise require valid
`ManagementForm` data (raising `ValidationError` when it is missing or
tampered), resynchronise the stored current step with the client-declared
one, then validate the current step's forms. -/
def post (w : Wizard) (s : WizardState) (req : Request) :
    Except (Failure × WizardState) (Response × WizardState) :=
  match gotoStep w s req with
  | some g => .ok (render_goto_step w s g)
  | none =>
    match mgmtCleaned w req with
    | none => .error (.validationError, s)
    | some v => postValidate w (mgmtAdjust w s v) req

/-- `NamedUrlWizardView.render_revalidation_failure` (`forms.py` lines
475-481): set the stored current step to the failed step and redirect to
its address. -/
def named_revalidation_failure (w : Wizard) (k : String) (_f : FormInstance)
    (s : WizardState) : Response × WizardState :=
  (.redirect w.url_name k "", { s with current_step := some k })

/-- `NamedUrlWizardView.render_done` (`forms.py` lines 483-490): redirect
to the "done" address when the URL step kwarg does not match, otherwise
run the base finalize with the redirecting revalidation-failure
handler. -/
def named_render_done (w : Wizard) (s : WizardState) (step_kw : Option String) :
    Except (Failure × WizardState) (Response × WizardState) :=
  if step_kw = some w.done_step_name then
    render_done_core (named_revalidation_failure w) w s
  else .ok (.redirect w.url_name w.done_step_name "", s)

/-- `QueryDict.urlencode` over the GET parameters (percent-encoding
abstracted; only emptiness and pass-through matter here). -/
def urlencode (q : List (String × String)) : String :=
  String.intercalate "&" (q.map fun p => p.1 ++ "=" ++ p.2)

/-- `NamedUrlWizardView.get` (`forms.py` lines 394-437): no step in the URL
redirects to the current step's address (optionally resetting first); the
reserved "done" address runs finalize on whatever is in storage; the
current step's address renders it; another known step's address switches
to it and renders; anything else self-heals to the first step. -/
def namedUrlGet (w : Wizard) (s : WizardState) (step_url : Option String)
    (getq : List (String × String)) :
    Except (Failure × WizardState) (Response × WizardState) :=
  match step_url with
  | none =>
    let s1 :=
      if (getq.lookup "reset").isSome then
        { resetState with current_step := some (stepsFirst w resetState) }
      else s
    let qs := if getq.isEmpty then "" else "?" ++ urlencode getq
    .ok (.redirect w.url_name (stepsCurrent w s1) qs, s1)
  | some u =>
    if u = w.done_step_name then
      let last := stepsLast w s
      match get_form w s (some last) (get_step_data s last) (get_step_files s last) with
      | .error e => .error (e, s)
      | .ok _f => named_render_done w s (some u)
    else if u = stepsCurrent w s then
      match get_form w s none (get_step_data s (stepsCurrent w s))
          (get_step_files s (stepsCurrent w s)) with
      | .error e => .error (e, s)
      | .ok f => .ok (.renderedSingle f, s)
    else if (activeSteps w s).contains u then
      let s' := { s with current_step := some u }
      match get_form w s' none (get_step_data s' (stepsCurrent w s'))
          (get_step_files s' (stepsCurrent w s')) with
      | .error e => .error (e, s')
      | .ok f => .ok (.renderedSingle f, s')
    else
      let s' := { s with current_step := some (stepsFirst w s) }
      .ok (.redirect w.url_name (stepsFirst w s') "", s')

/-! Observation helpers: projections of controller outcomes onto decidable
data (states, failure kinds, response shapes, class names, tags), used to
state concrete counterexamples and witnesses. -/

/-- The wizard state after an outcome, whether normal or exceptional. -/
def stateOf : Except (Failure × WizardState) (Response × WizardState) → WizardState
  | .ok (_, s) => s
  | .error (_, s) => s

/-- The failure of an outcome, if any. -/
def failureOf : Except (Failure × WizardState) (Response × WizardState) → Option Failure
  | .ok _ => none
  | .error (e, _) => some e

/-- The response of a normal outcome. -/
def respOf : Except (Failure × WizardState) (Response × WizardState) → Option Response
  | .ok (r, _) => some r
  | .error _ => none

/-- The constructor of a response, as a label. -/
def respKind : Response → String
  | .rendered _ => "rendered"
  | .renderedSingle _ => "renderedSingle"
  | .redirect _ _ _ => "redirect"
  | .doneResponse _ _ => "doneResponse"

/-- The label of the response of an outcome. -/
def respKindOf (r : Except (Failure × WizardState) (Response × WizardState)) :
    Option String :=
  (respOf r).map respKind

/-- The class names inside one result entry. -/
def entryClsNames : ResultEntry → List String
  | .single f => [f.clsName]
  | .grouped l => l.map (·.2.clsName)

/-- Whether a result entry is a tag-keyed mapping. -/
def entryIsGrouped : ResultEntry → Bool
  | .single _ => false
  | .grouped _ => true

/-- The `_tag` attribute still attached to a single result form. -/
def entrySingleTag : ResultEntry → Option String
  | .single f => f.tag
  | .grouped _ => none

/-- The class names of each slot of the ordered result list received by the
echoing `done` callback. -/
def doneListObs (r : Except (Failure × WizardState) (Response × WizardState)) :
    Option (List (List String)) :=
  match respOf r with
  | some (.doneResponse fl _) => some (fl.map entryClsNames)
  | _ => none

/-- Key, groupedness and retained `_tag` of each slot of the name-keyed
result mapping received by the echoing `done` callback. -/
def doneDictObs (r : Except (Failure × WizardState) (Response × WizardState)) :
    Option (List (String × Bool × Option String)) :=
  match respOf r with
  | some (.doneResponse _ fd) =>
    some (fd.map fun kv => (kv.1, entryIsGrouped kv.2, entrySingleTag kv.2))
  | _ => none

/-- Whether `get_initkwargs` succeeded. -/
def initkwargsErr : Except ConfigError (List (String × FormStruct)) →
    Option ConfigError
  | .ok _ => none
  | .error e => some e

/-- A placeholder form instance (only ever produced by `Option.getD` on
options proved to be `some`). -/
def dfltForm : FormInstance :=
  { clsName := "", check := fun _ _ _ => false, data := none, files := none,
    pfx := "", tag := none }

/-- The `result_forms` dict produced by `render_done` when every step
revalidates: each active step's rebuilt forms, assembled in collection
order. -/
def finalizedDict (w : Wizard) (s : WizardState) : List (String × ResultEntry) :=
  assembleResults ((activeSteps w s).map fun k => (k, rebuiltForms w s k))

/-- Key and class names of each slot of the name-keyed result mapping
received by the echoing `done` callback. -/
def doneDictNames (r : Except (Failure × WizardState) (Response × WizardState)) :
    Option (List (String × List String)) :=
  match respOf r with
  | some (.doneResponse _ fd) => some (fd.map fun kv => (kv.1, entryClsNames kv.2))
  | _ => none

/-- The grouped result entry contributed by step `k` when its collection
has at least two forms. -/
def groupEntry (w : Wizard) (s : WizardState) (k : String) : ResultEntry :=
  .grouped ((rebuiltForms w s k).map fun f => (tagKey f, untag f))

/-! Concrete fixtures for counterexamples and witnesses. -/

/-- A terminal callback that echoes its two arguments into the response. -/
def doneEcho : List ResultEntry → List (String × ResultEntry) →
    Except String Response :=
  fun fl fd => .ok (.doneResponse fl fd)

/-- A form class named `n` that validates exactly when its bound data
contains the key `key`. -/
def fcOk (n key : String) : FormClass :=
  { name := n, base_fields := [],
    checkValid := fun _ d _ => ((d.getD []).lookup key).isSome }

/-- A form class that validates whenever it is bound. -/
def fcAny (n : String) : FormClass :=
  { name := n, base_fields := [], checkValid := fun _ _ _ => true }

/-- Fixture: a two-step wizard `a`, `b` of single forms requiring the field
`ok` in their data. -/
def wizAB : Wizard :=
  { form_list := [("a", .plainForm (fcOk "FA" "ok")), ("b", .plainForm (fcOk "FB" "ok"))],
    cond := fun _ _ => true, pfx := "mgmt", done := doneEcho,
    url_name := "wiz", done_step_name := "done" }

/-- Fixture: state on the last step of `wizAB` whose stored data for step
`a` has been corrupted (it no longer carries the `ok` field) while step
`b`'s stored data is valid. -/
def stateCorruptA : WizardState :=
  { current_step := some "b",
    step_data := [("a", [("bad", "1")]), ("b", [("ok", "1")])],
    step_files := [], extra_data := [("note", "x")] }

/-- Fixture: a wizard whose declared step order `b`, `a` is not in
lexicographic order. -/
def wizBA : Wizard :=
  { form_list := [("b", .plainForm (fcAny "FB")), ("a", .plainForm (fcAny "FA"))],
    cond := fun _ _ => true, pfx := "mgmt", done := doneEcho,
    url_name := "wiz", done_step_name := "done" }

/-- Fixture: both steps of `wizBA` stored with (any) valid data. -/
def stateBA : WizardState :=
  { current_step := some "a",
    step_data := [("b", [("x", "1")]), ("a", [("y", "2")])],
    step_files := [], extra_data := [] }

/-- Fixture: a wizard with one grouped step `s` declaring exactly one tag
`a`. -/
def wizOneTag : Wizard :=
  { form_list := [("s", .mapping [("a", fcAny "FA")])],
    cond := fun _ _ => true, pfx := "mgmt", done := doneEcho,
    url_name := "wiz", done_step_name := "done" }

/-- Fixture: the grouped step of `wizOneTag` stored with valid data. -/
def stateOneTag : WizardState :=
  { current_step := some "s", step_data := [("s", [("x", "1")])],
    step_files := [], extra_data := [] }

/-- Fixture: a one-step wizard whose terminal callback raises. -/
def wizRaise : Wizard :=
  { form_list := [("a", .plainForm (fcAny "FA"))],
    cond := fun _ _ => true, pfx := "mgmt",
    done := fun _ _ => .error "boom",
    url_name := "wiz", done_step_name := "done" }

/-- Fixture: stored state for `wizRaise` with valid data and visible extra
data. -/
def stateRaise : WizardState :=
  { current_step := some "a", step_data := [("a", [("x", "1")])],
    step_files := [], extra_data := [("note", "x")] }

/-- Fixture: a wizard with one grouped step `s` whose two tags `a` and `b`
name the same form class. -/
def wizTwoTags : Wizard :=
  { form_list := [("s", .mapping [("a", fcAny "F"), ("b", fcAny "F")])],
    cond := fun _ _ => true, pfx := "mgmt", done := doneEcho,
    url_name := "wiz", done_step_name := "done" }

/-- Fixture: a grouped-step wizard with two tags, used to witness the
two-tag finalize behaviour. -/
def wizGroup2 : Wizard :=
  { form_list := [("g", .mapping [("x", fcAny "FX"), ("y", fcAny "FY")])],
    cond := fun _ _ => true, pfx := "mgmt", done := doneEcho,
    url_name := "wiz", done_step_name := "done" }

/-- Fixture: the grouped step of `wizGroup2` stored with valid data. -/
def stateGroup2 : WizardState :=
  { current_step := some "g", step_data := [("g", [("x", "1")])],
    step_files := [], extra_data := [] }

/-- Fixture: the named-URL two-step wizard of the "done"-address scenario,
parameterised by the two single form classes. -/
def mkNamedW (A B : FormClass) : Wizard :=
  { form_list := [("a", .plainForm A), ("b", .plainForm B)],
    cond := fun _ _ => true, pfx := "mgmt", done := doneEcho,
    url_name := "wiz", done_step_name := "done" }

/-- Fixture: storage holding submitted data and files for step `a` only,
with `a` still the current step. -/
def mkNamedS (da : StepData) (fa : StepFiles) : WizardState :=
  { current_step := some "a", step_data := [("a", da)],
    step_files := [("a", fa)], extra_data := [] }

/-- Fixture: a plain form class carrying a `forms.FileField`. -/
def fcFile : FormClass :=
  { name := "FileForm", base_fields := [{ name := "upload", is_file := true }],
    checkValid := fun _ _ _ => true }

/-- Fixture: a formset class (item form without file fields). -/
def fsPlain : FormSetClass :=
  { name := "FS", form := fcAny "Item", checkValid := fun _ _ _ => true }

/-- Fixture: a declared form list whose second entry pairs a step name with
a plain formset class. -/
def exList : List FormListEntry :=
  [.named "a" (.plainForm (fcAny "FA")), .named "fsstep" (.plainFormSet fsPlain)]

/-- Fixture: a POST request carrying no goto directive and no management
marker. -/
def reqNoMgmt : Request := { post := [("x", "1")], files := [] }

/-- Fixture: a POST request whose management marker declares step `a`. -/
def reqMgmtA : Request :=
  { post := [("mgmt-current_step", "a")], files := [] }

/-- Fixture: state currently on step `a` of `wizAB`, with step `a`'s
last-known-good data stored. -/
def stateOnA : WizardState :=
  { current_step := some "a", step_data := [("a", [("ok", "1")])],
    step_files := [], extra_data := [] }

/-- Fixture: a POST for step `a` of `wizAB` whose form data is invalid (no
`ok` field), with a matching management marker. -/
def reqInvalidA : Request :=
  { post := [("mgmt-current_step", "a"), ("other", "1")], files := [] }

/-! Helper lemmas. -/

/-- Unfolding equation for `charListLe` on two cons cells. -/
theorem charListLe_cons (a b : Char) (as bs : List Char) :
    charListLe (a :: as) (b :: bs) =
      if a.toNat < b.toNat then true
      else if b.toNat < a.toNat then false
      else charListLe as bs := rfl

/-- The code-point order is total. -/
theorem charListLe_total :
    ∀ as bs : List Char, charListLe as bs = true ∨ charListLe bs as = true := by
  intro as
  induction as with
  | nil => intro bs; exact .inl rfl
  | cons a as ih =>
    intro bs
    cases bs with
    | nil => exact .inr rfl
    | cons b bs =>
      rw [charListLe_cons, charListLe_cons]
      by_cases hab : a.toNat < b.toNat
      · exact .inl (by rw [if_pos hab])
      · by_cases hba : b.toNat < a.toNat
        · exact .inr (by rw [if_pos hba])
        · rw [if_neg hab, if_neg hba, if_neg hba, if_neg hab]
          exact ih bs

/-- The code-point order is transitive. -/
theorem charListLe_trans :
    ∀ as bs cs : List Char, charListLe as bs = true → charListLe bs cs = true →
      charListLe as cs = true := by
  intro as
  induction as with
  | nil => intro bs cs _ _; rfl
  | cons a as ih =>
    intro bs cs h1 h2
    cases bs with
    | nil => exact absurd h1 (by simp [charListLe])
    | cons b bs =>
      cases cs with
      | nil => exact absurd h2 (by simp [charListLe])
      | cons c cs =>
        rw [charListLe_cons] at h1 h2 ⊢
        by_cases hab : a.toNat < b.toNat
        · by_cases hbc : b.toNat < c.toNat
          · rw [if_pos (Nat.lt_trans hab hbc)]
          · rw [if_neg hbc] at h2
            by_cases hcb : c.toNat < b.toNat
            · rw [if_pos hcb] at h2; exact absurd h2 (by simp)
            · rw [if_pos (show a.toNat < c.toNat by omega)]
        · rw [if_neg hab] at h1
          by_cases hba : b.toNat < a.toNat
          · rw [if_pos hba] at h1; exact absurd h1 (by simp)
          · rw [if_neg hba] at h1
            by_cases hbc : b.toNat < c.toNat
            · rw [if_pos (show a.toNat < c.toNat by omega)]
            · rw [if_neg hbc] at h2
              by_cases hcb : c.toNat < b.toNat
              · rw [if_pos hcb] at h2; exact absurd h2 (by simp)
              · rw [if_neg hcb] at h2
                rw [if_neg (show ¬a.toNat < c.toNat by omega),
                  if_neg (show ¬c.toNat < a.toNat by omega)]
                exact ih bs cs h1 h2

/-- The sorted key/entry pairs are a permutation of the originals. -/
theorem sortPairs_perm (l : List (String × ResultEntry)) :
    (sortPairs l).Perm l :=
  List.perm_insertionSort pairLe l

/-- The sorted key/entry pairs are sorted by the key order. -/
theorem sortPairs_sorted (l : List (String × ResultEntry)) :
    List.Sorted pairLe (sortPairs l) := by
  haveI : IsTotal (String × ResultEntry) pairLe :=
    ⟨fun p q => charListLe_total p.1.data q.1.data⟩
  haveI : IsTrans (String × ResultEntry) pairLe :=
    ⟨fun p q r h1 h2 => charListLe_trans p.1.data q.1.data r.1.data h1 h2⟩
  exact List.sorted_insertionSort pairLe l

/-- A step whose rebuilt forms contain an invalid one has a first invalid
form. -/
theorem firstInvalid_isSome_of_stepFails {w : Wizard} {s : WizardState}
    {k : String} (h : stepFails w s k = true) :
    ∃ f, firstInvalid (rebuiltForms w s k) = some f := by
  unfold stepFails at h
  rw [List.any_eq_true] at h
  unfold firstInvalid
  obtain ⟨f, hf, hp⟩ := h
  have : (List.find? (fun f => !f.is_valid) (rebuiltForms w s k)).isSome := by
    rw [List.find?_isSome]
    exact ⟨f, hf, hp⟩
  exact Option.isSome_iff_exists.mp this

/-- A step none of whose rebuilt forms is invalid has no first invalid
form. -/
theorem firstInvalid_none_of_not_stepFails {w : Wizard} {s : WizardState}
    {k : String} (h : stepFails w s k = false) :
    firstInvalid (rebuiltForms w s k) = none := by
  unfold stepFails at h
  unfold firstInvalid
  rw [List.find?_eq_none]
  intro f hf
  rw [List.any_eq_false] at h
  exact h f hf

/-- The revalidation loop aborts at the first step, in collection order,
whose rebuilt forms fail validation, reporting its first invalid form. -/
theorem revalidate_error_of_find? (w : Wizard) (s : WizardState) :
    ∀ (ks : List String) (k : String), ks.find? (stepFails w s) = some k →
      ∃ f, firstInvalid (rebuiltForms w s k) = some f ∧
        revalidate w s ks = .error (k, f) := by
  intro ks
  induction ks with
  | nil => intro k h; simp [List.find?] at h
  | cons k' ks ih =>
    intro k h
    by_cases hk' : stepFails w s k' = true
    · rw [List.find?_cons_of_pos _ hk'] at h
      obtain rfl : k' = k := by injection h
      obtain ⟨f, hf⟩ := firstInvalid_isSome_of_stepFails hk'
      refine ⟨f, hf, ?_⟩
      simp only [revalidate]
      rw [hf]
    · rw [List.find?_cons_of_neg _ hk'] at h
      obtain ⟨f, hf, hrv⟩ := ih k h
      refine ⟨f, hf, ?_⟩
      have hnone : firstInvalid (rebuiltForms w s k') = none :=
        firstInvalid_none_of_not_stepFails (by simpa using hk')
      simp only [revalidate]
      rw [hnone, hrv]
      rfl

/-- When every step's rebuilt forms validate, the revalidation loop
collects each step's rebuilt forms in collection order. -/
theorem revalidate_ok_of_all (w : Wizard) (s : WizardState) :
    ∀ ks : List String, (∀ k ∈ ks, stepFails w s k = false) →
      revalidate w s ks = .ok (ks.map fun k => (k, rebuiltForms w s k)) := by
  intro ks
  induction ks with
  | nil => intro _; rfl
  | cons k' ks ih =>
    intro h
    have hnone : firstInvalid (rebuiltForms w s k') = none :=
      firstInvalid_none_of_not_stepFails (h k' (List.Mem.head _))
    simp only [revalidate]
    rw [hnone, ih fun k hk => h k (List.Mem.tail _ hk)]
    rfl

/-- `render_done` (with either revalidation-failure handler) aborts via the
handler at the first failing step. -/
theorem render_done_core_failure
    (rvf : String → FormInstance → WizardState → Response × WizardState)
    (w : Wizard) (s : WizardState) (k : String)
    (hk : (activeSteps w s).find? (stepFails w s) = some k) :
    render_done_core rvf w s =
      .ok (rvf k ((firstInvalid (rebuiltForms w s k)).getD dfltForm) s) := by
  obtain ⟨f, hf, hrv⟩ := revalidate_error_of_find? w s _ k hk
  unfold render_done_core
  rw [hrv, hf]
  rfl

/-- `render_done` (with either revalidation-failure handler) reaches the
terminal dispatch with the assembled results when every step
revalidates. -/
theorem render_done_core_ok
    (rvf : String → FormInstance → WizardState → Response × WizardState)
    (w : Wizard) (s : WizardState)
    (h : ∀ k ∈ activeSteps w s, stepFails w s k = false) :
    render_done_core rvf w s = doneDispatch w (finalizedDict w s) s := by
  unfold render_done_core finalizedDict
  rw [revalidate_ok_of_all w s _ h]

/-- A collection of at least two forms assembles into the tag-keyed
mapping with tags removed. -/
theorem entryOfCollection_of_two_le (l : List FormInstance) (h : 2 ≤ l.length) :
    entryOfCollection l = some (.grouped (l.map fun f => (tagKey f, untag f))) := by
  match l with
  | [] => simp at h
  | [f] => simp at h
  | f1 :: f2 :: fs => rfl

/-- Membership in the assembled results comes from a step's collection. -/
theorem mem_assembleResults {l : List (String × List FormInstance)}
    {k : String} {e : ResultEntry} (h : (k, e) ∈ assembleResults l) :
    ∃ fs, (k, fs) ∈ l ∧ entryOfCollection fs = some e := by
  unfold assembleResults at h
  rw [List.mem_filterMap] at h
  obtain ⟨kv, hkv, hmap⟩ := h
  cases hoc : entryOfCollection kv.2 with
  | none => rw [hoc] at hmap; simp at hmap
  | some e' =>
    rw [hoc] at hmap
    simp only [Option.map_some'] at hmap
    obtain ⟨hk, he⟩ := Prod.mk.injEq .. ▸ (Option.some.injEq .. ▸ hmap :
      (kv.1, e') = (k, e))
    refine ⟨kv.2, ?_, ?_⟩
    · have : kv = (k, kv.2) := by rw [← hk]
      rw [← this]; exact hkv
    · rw [hoc, he]

/-! Claim C1. -/

/-- Claim C1, counterexample to "WizardState is left untouched on that
path": on `wizAB` with step `a`'s stored data corrupted, finalize aborts
at step `a` through revalidation-failure handling (no failure raised, a
single-form re-render, the terminal callback never reached), but the
resulting WizardState differs from the entry state — the handler moves the
stored current step from `b` to the failed step `a`. -/
theorem C1_counterexample :
    stateOf (render_done wizAB stateCorruptA) ≠ stateCorruptA ∧
    (stateOf (render_done wizAB stateCorruptA)).current_step = some "a" ∧
    stateCorruptA.current_step = some "b" ∧
    respKindOf (render_done wizAB stateCorruptA) = some "renderedSingle" ∧
    failureOf (render_done wizAB stateCorruptA) = none := by decide

/-- Claim C1 (amended): on finalize the controller rebuilds and
re-validates every step's forms from persisted data in step-collection
order; the first step whose rebuilt forms fail validation aborts finalize
via revalidation-failure handling and the terminal callback is never
invoked (the outcome is the same for every callback).  The per-step data,
files and extra data of WizardState are untouched and no reset occurs on
that path, but the revalidation-failure handler sets the stored current
step to the failed step before re-rendering that step's failing form. -/
theorem render_done_aborts_at_first_failing_step (w : Wizard) (s : WizardState)
    (k : String) (hk : (activeSteps w s).find? (stepFails w s) = some k) :
    render_done w s =
      .ok (.renderedSingle ((firstInvalid (rebuiltForms w s k)).getD dfltForm),
        { s with current_step := some k }) ∧
    ∀ d, render_done { w with done := d } s = render_done w s := by
  constructor
  · exact render_done_core_failure (base_revalidation_failure w) w s k hk
  · intro d
    unfold render_done
    rw [render_done_core_failure (base_revalidation_failure { w with done := d })
        { w with done := d } s k hk,
      render_done_core_failure (base_revalidation_failure w) w s k hk]
    rfl

/-- Witness for C1's amended theorem at the corrupted two-step wizard. -/
theorem C1_witness :
    render_done wizAB stateCorruptA =
      .ok (.renderedSingle
          ((firstInvalid (rebuiltForms wizAB stateCorruptA "a")).getD dfltForm),
        { stateCorruptA with current_step := some "a" }) :=
  (render_done_aborts_at_first_failing_step wizAB stateCorruptA "a" (by decide)).1

/-! Claim C2. -/

/-- Claim C2, counterexample to "the ordered result list is ordered by step
position": on `wizBA`, whose declared (collection) step order is `b`, `a`,
every step revalidates, the name-keyed mapping is produced in collection
order (`b` slot of class `FB` first), but the list handed to the terminal
callback is `[FA-slot, FB-slot]` — lexicographic key order, not step
position. -/
theorem C2_counterexample :
    activeSteps wizBA stateBA = ["b", "a"] ∧
    doneDictNames (render_done wizBA stateBA) = some [("b", ["FB"]), ("a", ["FA"])] ∧
    doneListObs (render_done wizBA stateBA) = some [["FA"], ["FB"]] := by decide

/-- Claim C2 (amended): when every step revalidates at finalize, the
ordered result list passed to the terminal callback consists of the
assembled per-step results sorted by the lexicographic (code-point) order
of the step names — a permutation of the collection-ordered results that
agrees with step position exactly when the step names happen to be in
ascending string order (e.g. auto-numbered wizards of at most ten
steps). -/
theorem render_done_list_sorted_by_key_order (w : Wizard) (s : WizardState)
    (h : ∀ k ∈ activeSteps w s, stepFails w s k = false) :
    render_done w s = doneDispatch w (finalizedDict w s) s ∧
    List.Sorted pairLe (sortPairs (finalizedDict w s)) ∧
    (sortPairs (finalizedDict w s)).Perm (finalizedDict w s) :=
  ⟨render_done_core_ok (base_revalidation_failure w) w s h,
    sortPairs_sorted _, sortPairs_perm _⟩

/-- Witness for C2's amended theorem on the out-of-lexicographic-order
wizard. -/
theorem C2_witness :
    render_done wizBA stateBA = doneDispatch wizBA (finalizedDict wizBA stateBA) stateBA ∧
    List.Sorted pairLe (sortPairs (finalizedDict wizBA stateBA)) ∧
    (sortPairs (finalizedDict wizBA stateBA)).Perm (finalizedDict wizBA stateBA) :=
  render_done_list_sorted_by_key_order wizBA stateBA (by decide)

/-! Claim C3. -/

/-- Claim C3, counterexample to "for every grouped step": `wizOneTag`
declares step `s` as the mapping of the single tag `a`; finalize
contributes the bare validated form (not a one-entry mapping) for that
step's slot in both results, and the form still carries its `_tag`
attribute — the `len(formcollection) == 1` branch of `render_done` treats
a one-tag grouped step like a single-form step and skips the `delattr`. -/
theorem C3_counterexample :
    doneDictObs (render_done wizOneTag stateOneTag) = some [("s", false, some "a")] ∧
    doneListObs (render_done wizOneTag stateOneTag) = some [["FA"]] := by decide

/-- Claim C3 (amended): for every grouped step declaring at least two tags,
finalize contributes the mapping from tag to validated form for that
step's slot, in both the name-keyed result mapping and (through the sorted
list) the ordered result list, with the `_tag` attribute removed from
every form; a grouped step with exactly one tag instead contributes the
bare form with its tag retained. -/
theorem grouped_step_finalize_slot (w : Wizard) (s : WizardState)
    (h : ∀ k ∈ activeSteps w s, stepFails w s k = false)
    (k : String) (m : List (String × FormClass))
    (hk : w.form_list.lookup k = some (.mapping m)) (hm : 2 ≤ m.length)
    (e : ResultEntry) (he : (k, e) ∈ finalizedDict w s) :
    e = groupEntry w s k ∧
    ((rebuiltForms w s k).map fun f => tagKey f) = m.map (·.1) ∧
    (∀ p ∈ (rebuiltForms w s k).map (fun f => (tagKey f, untag f)), p.2.tag = none) ∧
    e ∈ (sortPairs (finalizedDict w s)).map (·.2) ∧
    render_done w s = doneDispatch w (finalizedDict w s) s := by
  have hrb : rebuiltForms w s k =
      m.map fun p => { mkForm p.2 (get_step_data s k) (get_step_files s k)
        (get_form_pfx k p.2.name) with tag := some p.1 } := by
    unfold rebuiltForms get_forms
    simp only [Option.getD_some]
    rw [hk]
  have hlen : 2 ≤ (rebuiltForms w s k).length := by
    rw [hrb, List.length_map]; exact hm
  have hge : entryOfCollection (rebuiltForms w s k) = some (groupEntry w s k) :=
    entryOfCollection_of_two_le _ hlen
  obtain ⟨fs, hfs, hoc⟩ := mem_assembleResults he
  obtain ⟨k', hk', hpair⟩ := List.mem_map.mp hfs
  have hk'k : k' = k := congrArg Prod.fst hpair
  have hfsr : rebuiltForms w s k = fs := by
    have h2 : rebuiltForms w s k' = fs := congrArg Prod.snd hpair
    rw [hk'k] at h2
    exact h2
  rw [← hfsr, hge] at hoc
  have hegroup : e = groupEntry w s k := by
    injection hoc with h'; exact h'.symm
  refine ⟨hegroup, ?_, ?_, ?_, render_done_core_ok (base_revalidation_failure w) w s h⟩
  · rw [hrb, List.map_map]
    simp [tagKey, Function.comp]
  · intro p hp
    obtain ⟨f, _, rfl⟩ := List.mem_map.mp hp
    rfl
  · exact List.mem_map.mpr ⟨(k, e), ((sortPairs_perm _).mem_iff).mpr he, rfl⟩

/-- Witness for C3's amended theorem at the two-tag grouped wizard. -/
theorem C3_witness :
    ((rebuiltForms wizGroup2 stateGroup2 "g").map fun f => tagKey f) =
      ([("x", fcAny "FX"), ("y", fcAny "FY")] : List (String × FormClass)).map (·.1) ∧
    groupEntry wizGroup2 stateGroup2 "g" ∈
      (sortPairs (finalizedDict wizGroup2 stateGroup2)).map (·.2) :=
  ⟨(grouped_step_finalize_slot wizGroup2 stateGroup2 (by decide) "g"
      [("x", fcAny "FX"), ("y", fcAny "FY")] rfl (by decide)
      (groupEntry wizGroup2 stateGroup2 "g") (List.Mem.head _)).2.1,
   (grouped_step_finalize_slot wizGroup2 stateGroup2 (by decide) "g"
      [("x", fcAny "FX"), ("y", fcAny "FY")] rfl (by decide)
      (groupEntry wizGroup2 stateGroup2 "g") (List.Mem.head _)).2.2.2.1⟩

/-! Claim C4. -/

/-- Claim C4, counterexample to "an exception raised by the callback
propagates only after the reset has already occurred": on `wizRaise`,
whose terminal callback raises, `render_done` propagates the exception
with the WizardState exactly as it was on entry — the reset never ran
(there is no `try`/`finally` around the callback). -/
theorem C4_counterexample :
    failureOf (render_done wizRaise stateRaise) = some (.callbackExn "boom") ∧
    stateOf (render_done wizRaise stateRaise) = stateRaise ∧
    stateRaise ≠ resetState := by decide

/-- Claim C4 (amended): when every step revalidates, `render_done` resets
WizardState after the terminal callback returns normally and before
returning its response; if the callback raises, the exception propagates
with WizardState unreset (left exactly as it was on entry to
finalize). -/
theorem render_done_reset_follows_callback (w : Wizard) (s : WizardState)
    (h : ∀ k ∈ activeSteps w s, stepFails w s k = false) :
    (∀ r, w.done ((sortPairs (finalizedDict w s)).map (·.2)) (finalizedDict w s) = .ok r →
      render_done w s = .ok (r, resetState)) ∧
    (∀ e, w.done ((sortPairs (finalizedDict w s)).map (·.2)) (finalizedDict w s) = .error e →
      render_done w s = .error (.callbackExn e, s)) := by
  have hd : render_done w s = doneDispatch w (finalizedDict w s) s :=
    render_done_core_ok (base_revalidation_failure w) w s h
  constructor
  · intro r hr
    rw [hd]; simp only [doneDispatch]; rw [hr]
  · intro e he
    rw [hd]; simp only [doneDispatch]; rw [he]

/-- Witness for C4's amended theorem at the raising-callback wizard. -/
theorem C4_witness :
    render_done wizRaise stateRaise = .error (.callbackExn "boom", stateRaise) :=
  (render_done_reset_follows_callback wizRaise stateRaise (by decide)).2 "boom" rfl

/-! Claim C5. -/

/-- Claim C5: on a POST with no goto directive, a structurally invalid
management marker makes the request fail with `ValidationError` with the
wizard state unmodified; with a valid marker the request proceeds from the
marker-adjusted state, and when the declared step differs from the tracked
current step, the stored current step becomes the client-declared value
exactly when the storage already has a current step (a wizard with no
current step keeps its tracked step). -/
theorem post_management_marker (w : Wizard) (s : WizardState) (req : Request)
    (hng : gotoStep w s req = none) :
    (mgmtCleaned w req = none → post w s req = .error (.validationError, s)) ∧
    (∀ v, mgmtCleaned w req = some v →
      post w s req = postValidate w (mgmtAdjust w s v) req ∧
      (v ≠ stepsCurrent w s →
        ((mgmtAdjust w s v).current_step = some v ↔ s.current_step.isSome = true) ∧
        (s.current_step = none → mgmtAdjust w s v = s))) := by
  constructor
  · intro hm
    unfold post
    rw [hng, hm]
  · intro v hm
    refine ⟨?_, ?_⟩
    · unfold post
      rw [hng, hm]
    · intro hne
      constructor
      · constructor
        · intro hcs
          by_cases hc : (v != stepsCurrent w s && s.current_step.isSome) = true
          · rw [Bool.and_eq_true] at hc
            exact hc.2
          · unfold mgmtAdjust at hcs
            rw [if_neg hc] at hcs
            rw [hcs]
            rfl
        · intro hsome
          unfold mgmtAdjust
          rw [if_pos (by rw [Bool.and_eq_true]; exact ⟨bne_iff_ne.mpr hne, hsome⟩)]
      · intro hnone
        simp [mgmtAdjust, hnone]

/-- Witness for C5 on a missing marker (fatal, state unmodified) and on a
marker declaring step `a` while step `b` is tracked (stored current step
updated to the declared value). -/
theorem C5_witness :
    post wizAB stateCorruptA reqNoMgmt = .error (.validationError, stateCorruptA) ∧
    (mgmtAdjust wizAB stateCorruptA "a").current_step = some "a" ∧
    stateCorruptA.current_step = some "b" :=
  ⟨(post_management_marker wizAB stateCorruptA reqNoMgmt (by decide)).1 rfl,
   (((post_management_marker wizAB stateCorruptA reqMgmtA (by decide)).2 "a" rfl).2
      (by decide)).1.mpr (by decide),
   rfl⟩

/-! Claim C6. -/

/-- Claim C6: when any form of the current step fails validation on a POST,
the controller re-renders exactly the bound (partly invalid) forms of the
current step and returns the marker-adjusted state unchanged: per-step
data, files and extra data are exactly as before the request (invalid data
is never written), and when the declared step matches the tracked one the
whole WizardState is returned exactly as it entered. -/
theorem post_invalid_rerenders_current (w : Wizard) (s : WizardState)
    (req : Request) (v : String)
    (hng : gotoStep w s req = none) (hm : mgmtCleaned w req = some v)
    (hinv : (get_forms w (mgmtAdjust w s v) none (some req.post) (some req.files)).any
      (fun f => !f.is_valid) = true) :
    post w s req =
      .ok (.rendered (get_forms w (mgmtAdjust w s v) none (some req.post)
          (some req.files)),
        mgmtAdjust w s v) ∧
    (mgmtAdjust w s v).step_data = s.step_data ∧
    (mgmtAdjust w s v).step_files = s.step_files ∧
    (mgmtAdjust w s v).extra_data = s.extra_data ∧
    (v = stepsCurrent w s → mgmtAdjust w s v = s) := by
  have hall : (get_forms w (mgmtAdjust w s v) none (some req.post)
      (some req.files)).all (fun f => f.is_valid) = false := by
    rw [List.any_eq_true] at hinv
    obtain ⟨f, hf, hp⟩ := hinv
    rw [List.all_eq_false]
    exact ⟨f, hf, by simpa using hp⟩
  have hne : (get_forms w (mgmtAdjust w s v) none (some req.post)
      (some req.files)).isEmpty = false := by
    rw [List.any_eq_true] at hinv
    obtain ⟨f, hf, _⟩ := hinv
    cases hfs : get_forms w (mgmtAdjust w s v) none (some req.post) (some req.files) with
    | nil => rw [hfs] at hf; simp at hf
    | cons a l => rfl
  refine ⟨?_, ?_, ?_, ?_, ?_⟩
  · unfold post
    rw [hng, hm]
    simp only [postValidate]
    rw [hall]
    simp only [Bool.false_eq_true, if_false, render]
    rw [hne]
    simp
  · unfold mgmtAdjust; split <;> rfl
  · unfold mgmtAdjust; split <;> rfl
  · unfold mgmtAdjust; split <;> rfl
  · intro hv
    simp [mgmtAdjust, hv]

/-- Witness for C6 at an invalid resubmission of step `a`. -/
theorem C6_witness :
    post wizAB stateOnA reqInvalidA =
      .ok (.rendered (get_forms wizAB stateOnA none (some reqInvalidA.post)
        (some reqInvalidA.files)), stateOnA) :=
  (post_invalid_rerenders_current wizAB stateOnA reqInvalidA "a" (by decide) rfl
    (by decide)).1

/-! Claim C7. -/

/-- Claim C7, counterexample to "the forms built for distinct tags of one
step always receive distinct prefixes": the grouped step `s` of
`wizTwoTags` declares the two tags `a` and `b`, yet both constructed
sub-forms receive the same prefix — the bare step name `s`, not the
claimed `"<step-name>-<tag-or-absent>"`. -/
theorem C7_counterexample :
    (get_forms wizTwoTags stateOneTag (some "s") (some [("x", "1")]) none).map
      (fun f => (f.pfx, f.tag)) = [("s", some "a"), ("s", some "b")] := by decide

/-- Claim C7 (amended): every form constructed for a step — including every
sub-form of a grouped step — receives the same prefix, the step name:
`get_forms` computes each prefix as `get_form_prefix(step, form_class)`,
which the framework defines as `str(step)` and no class in this repository
overrides, so distinct tags never yield distinct prefixes. -/
theorem all_step_forms_share_step_name_pfx (w : Wizard) (s : WizardState)
    (stp : String) (d : Option StepData) (fl : Option StepFiles) :
    ∀ fi ∈ get_forms w s (some stp) d fl, fi.pfx = stp := by
  intro fi hfi
  unfold get_forms at hfi
  simp only [Option.getD_some] at hfi
  split at hfi
  · obtain ⟨p, _, rfl⟩ := List.mem_map.mp hfi
    rfl
  · rw [List.mem_singleton.mp hfi]; rfl
  · rw [List.mem_singleton.mp hfi]; rfl
  · rw [List.mem_singleton.mp hfi]; rfl
  · rw [List.mem_singleton.mp hfi]; rfl
  · simp at hfi
  · simp at hfi

/-- Witness for C7's amended theorem at the first sub-form of the two-tag
grouped step. -/
theorem C7_witness :
    ({ mkForm (fcAny "F") (some [("x", "1")]) none "s" with tag := some "a" } :
      FormInstance).pfx = "s" := by
  exact all_step_forms_share_step_name_pfx wizTwoTags stateOneTag "s"
    (some [("x", "1")]) none _ (List.Mem.head _)

/-! Claim C8. -/

/-- Claim C8: in the named-URL variant, a GET for the reserved "done"
address runs finalize against whatever per-step data is in storage — the
last step's page need never have been visited.  With steps `a`, `b`, step
`a` submitted with data validating for `A` and nothing stored for `b`,
finalize fails at the unbound step `b` and the response is a redirect to
step `b`'s address, with the stored current step moved to `b`. -/
theorem named_done_address_runs_finalize (A B : FormClass) (da : StepData)
    (fa : StepFiles) (hA : A.checkValid "a" (some da) (some fa) = true) :
    namedUrlGet (mkNamedW A B) (mkNamedS da fa) (some "done") [] =
      .ok (.redirect "wiz" "b" "", { mkNamedS da fa with current_step := some "b" }) := by
  have h1 : stepFails (mkNamedW A B) (mkNamedS da fa) "a" = false := by
    show (!(A.checkValid "a" (some da) (some fa)) ||
      List.any [] (fun f : FormInstance => !f.is_valid)) = false
    rw [hA]
    rfl
  have h2 : stepFails (mkNamedW A B) (mkNamedS da fa) "b" = true := rfl
  have hfind : (activeSteps (mkNamedW A B) (mkNamedS da fa)).find?
      (stepFails (mkNamedW A B) (mkNamedS da fa)) = some "b" := by
    have hsteps : activeSteps (mkNamedW A B) (mkNamedS da fa) = ["a", "b"] := rfl
    rw [hsteps, List.find?_cons_of_neg _ (by rw [h1]; simp),
      List.find?_cons_of_pos _ h2]
  show render_done_core (named_revalidation_failure (mkNamedW A B)) (mkNamedW A B)
    (mkNamedS da fa) = _
  rw [render_done_core_failure (named_revalidation_failure (mkNamedW A B))
    (mkNamedW A B) (mkNamedS da fa) "b" hfind]
  rfl

/-- Witness for C8 at concrete form classes requiring a `q` field. -/
theorem C8_witness :
    namedUrlGet (mkNamedW (fcOk "A" "q") (fcOk "B" "q"))
      (mkNamedS [("q", "1")] []) (some "done") [] =
      .ok (.redirect "wiz" "b" "",
        { mkNamedS [("q", "1")] [] with current_step := some "b" }) :=
  named_done_address_runs_finalize (fcOk "A" "q") (fcOk "B" "q") [("q", "1")] []
    (by decide)

/-! Claim C9. -/

/-- Claim C9, evaluation at the failing input: a form list whose only step
is a single plain form carrying a `forms.FileField`, on a controller
without `file_storage`, is accepted by `get_initkwargs` — its second loop
leaves `form_collection` empty for plain form classes, so the file-field
check never sees them — while the same file field in a grouped step's
sub-form or a bare formset's item form is rejected, and the empty form
list is rejected by the assertion, as the claim states. -/
theorem file_field_check_misses_single_form_steps :
    initkwargsErr (get_initkwargs false [.named "s" (.plainForm fcFile)]) = none ∧
    initkwargsErr (get_initkwargs false [.named "s" (.mapping [("a", fcFile)])]) =
      some .noFileStorageConfigured ∧
    initkwargsErr (get_initkwargs false [.bare (.plainFormSet
      { name := "FS2", form := fcFile, checkValid := fun _ _ _ => true })]) =
      some .noFileStorageConfigured ∧
    initkwargsErr (get_initkwargs false []) =
      some (.assertionError "at least one form is needed") := by decide

/-! Claim C10. -/

/-- Claim C10: a `(step_name, X)` form-list entry whose `X` is neither a
tag mapping nor a `forms.Form` subclass — for example a formset class —
is silently skipped by the first `get_initkwargs` loop: the accumulated
collection is returned unchanged for such an entry, and on the concrete
two-entry list `exList` (a named form step plus a named formset step) no
error is raised and the computed collection holds one step where two were
declared. -/
theorem named_nonform_entries_silently_skipped (acc : List (String × FormStruct))
    (i : Nat) (n : String) (fs : FormSetClass) :
    formListStep acc i (.named n (.plainFormSet fs)) = acc ∧
    formListStep acc i (.named n (.modelFormSet fs)) = acc ∧
    initkwargsErr (get_initkwargs true exList) = none ∧
    (computedFormList exList).map (·.1) = ["a"] ∧
    exList.length = 2 :=
  ⟨rfl, rfl, by decide, by decide, rfl⟩

end MFW
